import Mathlib

/-!
Verification of the KubeDev workspace lifecycle core.

This file shallowly embeds the reconciliation / provisioning logic of the
repository (backend/app/services/environment_service.py,
backend/app/services/kubernetes_service.py, backend/app.py,
backend/app/api/endpoints/auth.py, backend/app/api/endpoints/user.py) and
proves the specified lifecycle, quota, ordering, and projection properties
against the embedded code.

Conventions of the embedding:
* Calls to the orchestration platform are modelled by an oracle record of
  `Except String` outcomes, one per call site, so a program run is a pure
  function of the oracle.  `Except.error e` corresponds to the Python call
  raising an exception with message `e`.
* Kubernetes quantity strings are modelled by their parsed numeric value
  (`Rat` for CPU quantities, `Int` for whole-Gi memory quantities); Python's
  `float(x) * 0.5` is exact in IEEE arithmetic (halving only decrements the
  exponent), so `Rat` division by two represents it faithfully, and Python's
  `//` on ints is `Int.fdiv`.
* `asyncio.create_task` (fire-and-forget) is modelled by a Boolean field
  recording that the background readiness poller was spawned; the poller
  itself (`_wait_for_deployment_ready`) is a separate pure function, so the
  value returned by `deployEnvironment` cannot depend on readiness polling.
-/

namespace KubDev

/-- Environment status phases.  The enum module `app/models/environment.py` is
not part of the sources; the members are exactly those used by
`environment_service.py` (`CREATING`, `RUNNING`, `STOPPED`, `ERROR`) plus the
initial `Pending` phase of the spec's phase enum. -/
inductive EnvironmentStatus where
  | pending
  | creating
  | running
  | stopped
  | error
deriving DecidableEq, Repr, BEq

/-- The five platform calls `deploy_environment` makes, in source order
(environment_service.py lines 48, 52, 76, 87, 98). -/
inductive ProvisionStep where
  | ensureNamespace
  | applyQuota
  | createWorkload
  | createService
  | createIngressRoute
deriving DecidableEq, Repr

instance exceptDecEq {ε α : Type} [DecidableEq ε] [DecidableEq α] :
    DecidableEq (Except ε α) := fun x y =>
  match x, y with
  | .ok a, .ok b =>
      if h : a = b then .isTrue (by rw [h])
      else .isFalse (by intro hc; cases hc; exact h rfl)
  | .error a, .error b =>
      if h : a = b then .isTrue (by rw [h])
      else .isFalse (by intro hc; cases hc; exact h rfl)
  | .ok _, .error _ => .isFalse (by intro hc; cases hc)
  | .error _, .ok _ => .isFalse (by intro hc; cases hc)

/-- Oracle for the five awaited Kubernetes-service calls inside
`deploy_environment`'s `try` block.  `Except.error e` means the call raised
an exception with message `e`. -/
structure K8sCallResults where
  createNamespaceResult : Except String Unit
  createResourceQuotaResult : Except String Unit
  createDeploymentResult : Except String Unit
  createServiceResult : Except String Unit
  createIngressResult : Except String Unit
deriving DecidableEq

/-- Observable outcome of one `deploy_environment` run: the platform calls
attempted (in order), the sequence of status phases committed to the
database, the final committed status and message, the re-raised exception
message (if any), whether the background readiness task was spawned, and the
`"status"` field of the returned dict (absent when the call raised). -/
structure DeployOutcome where
  trace : List ProvisionStep
  phaseWrites : List EnvironmentStatus
  finalStatus : EnvironmentStatus
  statusMessage : String
  raised : Option String
  spawnedReadinessTask : Bool
  responseStatus : Option String
deriving DecidableEq

/-- The strict provisioning order of `deploy_environment`:
namespace, quota, deployment, service, ingress. -/
def deployStepOrder : List ProvisionStep :=
  [.ensureNamespace, .applyQuota, .createWorkload, .createService, .createIngressRoute]

/-- The `except` branch of `deploy_environment` (lines 135-140): set status
`ERROR`, keep the failure message as `"Deployment failed: " ++ e`, commit,
re-raise.  The status writes of a failed run are `CREATING` (line 43, before
the platform calls) followed by `ERROR`. -/
def deployFail (trace : List ProvisionStep) (e : String) : DeployOutcome :=
  { trace := trace
    phaseWrites := [.creating, .error]
    finalStatus := .error
    statusMessage := "Deployment failed: " ++ e
    raised := some e
    spawnedReadinessTask := false
    responseStatus := none }

/-- Embedding of `EnvironmentService.deploy_environment`
(environment_service.py lines 41-140): sequentially awaits namespace
creation, resource-quota creation, deployment creation, service creation and
ingress creation; on success commits `RUNNING` / `"Environment is ready"`,
spawns `_wait_for_deployment_ready` as a background task and returns
`"deployed"`; the first failing step aborts into the `except` branch.
The git init-clone is not a step here: it runs inside the created workload
as an init container whose command falls back to an empty `/workspace`
(`... || (mkdir -p /workspace && echo ...)`,
kubernetes_service.py lines 237-239), so it cannot raise. -/
def deployEnvironment (o : K8sCallResults) : DeployOutcome :=
  match o.createNamespaceResult with
  | .error e => deployFail [.ensureNamespace] e
  | .ok _ =>
    match o.createResourceQuotaResult with
    | .error e => deployFail [.ensureNamespace, .applyQuota] e
    | .ok _ =>
      match o.createDeploymentResult with
      | .error e => deployFail [.ensureNamespace, .applyQuota, .createWorkload] e
      | .ok _ =>
        match o.createServiceResult with
        | .error e =>
            deployFail [.ensureNamespace, .applyQuota, .createWorkload, .createService] e
        | .ok _ =>
          match o.createIngressResult with
          | .error e => deployFail deployStepOrder e
          | .ok _ =>
              { trace := deployStepOrder
                phaseWrites := [.creating, .running]
                finalStatus := .running
                statusMessage := "Environment is ready"
                raised := none
                spawnedReadinessTask := true
                responseStatus := some "deployed" }

/-- Embedding of the polling loop of `_wait_for_deployment_ready`
(environment_service.py lines 152-181).  `poll i` is the outcome of the
`i`-th `get_deployment_status` call, returning its `ready_replicas` count or
raising.  `elapsed` models the wall-clock seconds consumed by the
`asyncio.sleep(30)` between checks; the loop runs while `elapsed < maxWait`,
ends in `RUNNING` on a poll with at least one ready replica, in `ERROR`
with the health-check message on a raising poll, and in `ERROR` with the
timeout message when the bound is exceeded (the `while`-`else` branch). -/
def waitPoll (poll : Nat → Except String Nat) (maxWait i elapsed : Nat) :
    EnvironmentStatus × String :=
  if _h : elapsed < maxWait then
    match poll i with
    | .error e => (.error, "Health check failed: " ++ e)
    | .ok readyReplicas =>
        if 1 ≤ readyReplicas then
          (.running, "Environment is running and ready")
        else
          waitPoll poll maxWait (i + 1) (elapsed + 30)
  else
    (.error, "Deployment timeout - environment did not become ready")
termination_by maxWait - elapsed
decreasing_by omega

/-- `_wait_for_deployment_ready` with its default bound
`max_wait_time = 300` seconds (5 minutes), polling from time 0. -/
def waitForDeploymentReady (poll : Nat → Except String Nat) :
    EnvironmentStatus × String :=
  waitPoll poll 300 0 0

/-- The `hard` map computed by `KubernetesService.create_resource_quota`
(kubernetes_service.py lines 62-91).  CPU quantity strings are modelled by
their parsed magnitude (`float(cpu_limit.rstrip('m'))`) together with the
`endswith('m')` flag (the suffix is re-appended unchanged); memory is the
parsed whole-Gi integer (`int(memory_limit.rstrip('Gi'))`), and the storage
quantity passes through verbatim. -/
structure QuotaHard where
  limitsCpu : Rat
  cpuMilli : Bool
  limitsMemoryGi : Int
  requestsCpu : Rat
  requestsCpuMilli : Bool
  requestsMemoryGi : Int
  requestsStorage : String
  pods : Nat
  services : Nat
  persistentvolumeclaims : Nat
  secrets : Nat
  configmaps : Nat
deriving DecidableEq

/-- Default of the `pod_limit` parameter of `create_resource_quota`
(kubernetes_service.py line 57); `deploy_environment` also passes the
literal 5 (environment_service.py line 58). -/
def defaultPodLimit : Nat := 5

/-- `create_resource_quota`'s quota spec: `requests.cpu` is
`float(cpu_limit.rstrip('m')) * 0.5` with the `m` suffix preserved (line
71; halving an IEEE double is exact, so `Rat` division by 2 is faithful),
`requests.memory` is `int(memory_limit.rstrip('Gi')) // 2` re-suffixed with
`Gi` (line 72; Python `//` is floor division, i.e. `Int.fdiv`), and the
object-count ceilings are the literals of lines 78-88. -/
def quotaHardSpec (cpuLimit : Rat) (cpuMilli : Bool) (memoryLimitGi : Int)
    (storageLimit : String) (podLimit : Nat) : QuotaHard :=
  { limitsCpu := cpuLimit
    cpuMilli := cpuMilli
    limitsMemoryGi := memoryLimitGi
    requestsCpu := cpuLimit / 2
    requestsCpuMilli := cpuMilli
    requestsMemoryGi := Int.fdiv memoryLimitGi 2
    requestsStorage := storageLimit
    pods := podLimit
    services := 5
    persistentvolumeclaims := 3
    secrets := 10
    configmaps := 10 }

/-- The `"status"` field of the dict returned by `create_resource_quota`:
`"created"` on the success path (line 107), `"already_exists"` on the 409
path (line 116). -/
inductive QuotaCreateStatus where
  | created
  | alreadyExists
deriving DecidableEq, Repr

/-- Embedding of `create_resource_quota` (kubernetes_service.py lines
50-118) against the platform contract of the spec (section 6): the platform
accepts `create_namespaced_resource_quota` when no quota of that name exists
in the namespace and raises 409 otherwise.  On 409 the code returns
`{"status": "already_exists"}` and issues no update call, so the installed
quota record is returned to the cluster unchanged. -/
def createResourceQuota (existing : Option QuotaHard) (cpuLimit : Rat)
    (cpuMilli : Bool) (memoryLimitGi : Int) (storageLimit : String)
    (podLimit : Nat) : Option QuotaHard × QuotaCreateStatus :=
  match existing with
  | some h => (some h, .alreadyExists)
  | none =>
      (some (quotaHardSpec cpuLimit cpuMilli memoryLimitGi storageLimit podLimit),
        .created)

/-- Outcome of a raw Kubernetes API call: normal return, or an
`ApiException` with an HTTP status and message. -/
inductive ApiCallOutcome where
  | success
  | apiException (status : Nat) (reason : String)
deriving DecidableEq

/-- Embedding of `KubernetesService.create_namespace` (kubernetes_service.py
lines 37-48): returns `True`; an `ApiException` with status 409 (already
exists) also returns `True`; any other `ApiException` is re-raised as
`"Failed to create namespace: ..."`. -/
def createNamespace (outcome : ApiCallOutcome) : Except String Bool :=
  match outcome with
  | .success => .ok true
  | .apiException st reason =>
      if st = 409 then .ok true
      else .error ("Failed to create namespace: " ++ reason)

/-- Embedding of `KubernetesService.delete_deployment` (lines 402-413):
returns `True`; an `ApiException` with status 404 (already deleted) also
returns `True`; any other `ApiException` raises. -/
def deleteDeployment (outcome : ApiCallOutcome) : Except String Bool :=
  match outcome with
  | .success => .ok true
  | .apiException st reason =>
      if st = 404 then .ok true
      else .error ("Failed to delete deployment: " ++ reason)

/-- Embedding of `KubernetesService.delete_service` (lines 415-426):
same 404-as-success shape as `delete_deployment`. -/
def deleteService (outcome : ApiCallOutcome) : Except String Bool :=
  match outcome with
  | .success => .ok true
  | .apiException st reason =>
      if st = 404 then .ok true
      else .error ("Failed to delete service: " ++ reason)

/-- The fields of the KubeDevEnvironment custom resource consulted by the
stop/start/delete handlers in backend/app.py: `spec.userName`,
`status.phase` (never read by these handlers) and `status.namespace`
(`None` both when `status` is absent and when the key is absent; the empty
string is a distinct falsy value). -/
structure KubeDevCR where
  userName : String
  phase : Option String
  statusNamespace : Option String
deriving DecidableEq

/-- An `HTTPException(status_code, detail)` raised by a handler. -/
structure HttpFailure where
  code : Nat
  detail : String
deriving DecidableEq

/-- The `scale_deployment(ns, "ide-" + wid, replicas)` call a successful
stop/start handler performs. -/
structure ScaleCall where
  targetNamespace : String
  deploymentName : String
  replicas : Nat
deriving DecidableEq

/-- Embedding of the `stop_workspace` handler (backend/app.py lines
129-140): 403 `Forbidden` when `spec.userName != user.name`, 409
`Workspace not ready` when `status.namespace` is falsy (absent or empty),
otherwise scale `ide-{wid}` in the status namespace to 0 replicas. -/
def stopWorkspace (wid : String) (cr : KubeDevCR) (requester : String) :
    Except HttpFailure ScaleCall :=
  if cr.userName ≠ requester then .error ⟨403, "Forbidden"⟩
  else
    match cr.statusNamespace with
    | none => .error ⟨409, "Workspace not ready"⟩
    | some nsName =>
        if nsName = "" then .error ⟨409, "Workspace not ready"⟩
        else .ok ⟨nsName, "ide-" ++ wid, 0⟩

/-- Embedding of the `start_workspace` handler (backend/app.py lines
143-154): identical checks, scaling to 1 replica. -/
def startWorkspace (wid : String) (cr : KubeDevCR) (requester : String) :
    Except HttpFailure ScaleCall :=
  if cr.userName ≠ requester then .error ⟨403, "Forbidden"⟩
  else
    match cr.statusNamespace with
    | none => .error ⟨409, "Workspace not ready"⟩
    | some nsName =>
        if nsName = "" then .error ⟨409, "Workspace not ready"⟩
        else .ok ⟨nsName, "ide-" ++ wid, 1⟩

/-- The environment name `admin_batch_create` derives for each target user
(backend/app.py line 185). -/
def envName (uname payloadName : String) : String :=
  "env-" ++ uname ++ "-" ++ payloadName

/-- Embedding of the loop of `admin_batch_create` (backend/app.py lines
182-202): for each user name, call `create_kubedev_environment` on the
derived environment name; append the result to `created` on success, append
`"{uname}: {e}"` to `failed` when it raises, and continue with the remaining
users either way. -/
def adminBatchCreate {α : Type} (create : String → Except String α)
    (payloadName : String) : List String → List α × List String
  | [] => ([], [])
  | uname :: rest =>
      let res := adminBatchCreate create payloadName rest
      match create (envName uname payloadName) with
      | .ok made => (made :: res.1, res.2)
      | .error e => (res.1, (uname ++ ": " ++ e) :: res.2)

/-- Embedding of the `can_access` computation of `get_my_environment`
(auth.py lines 164-167): `environment.status == EnvironmentStatus.RUNNING
and access_url is not None`.  `access_url` is the record's address after the
best-effort live enrichment; `none` models Python `None`. -/
def canAccess (status : EnvironmentStatus) (accessUrl : Option String) : Bool :=
  status == .running && accessUrl.isSome

/-- Characters kept by `re.sub(r'[^a-z0-9-]', '', s)` (user.py line 53). -/
def isK8sNameChar (c : Char) : Bool :=
  ('a' ≤ c && c ≤ 'z') || ('0' ≤ c && c ≤ '9') || c == '-'

/-- `re.sub(r'-+', '-', s)` (user.py line 55): collapse each maximal run of
hyphens to a single hyphen. -/
def collapseHyphens : List Char → List Char
  | [] => []
  | [c] => [c]
  | a :: b :: rest =>
      if a == '-' && b == '-' then collapseHyphens (b :: rest)
      else a :: collapseHyphens (b :: rest)

/-- Python `str.strip('-')` (user.py line 57): drop every leading and
trailing hyphen. -/
def stripHyphens (l : List Char) : List Char :=
  ((l.dropWhile (fun c => c == '-')).reverse.dropWhile (fun c => c == '-')).reverse

/-- Embedding of `sanitize_name_for_k8s` (user.py lines 37-70) on the
character list of the input.  The first two Python steps
(`unicodedata.normalize('NFKD', ...)` then `encode('ASCII','ignore')`) are
the identity on ASCII characters and drop what has no ASCII decomposition;
they are modelled as the ASCII filter, which is exact for ASCII inputs.
The remaining steps mirror the source line by line: spaces to hyphens,
lowercase, keep `[a-z0-9-]`, collapse hyphen runs, strip outer hyphens,
default `"user"` when empty, prepend `u` when the first character is not
alphanumeric (unreachable after the strip), truncate to 63 characters. -/
def sanitizeNameForK8s (name : List Char) : List Char :=
  let ascii := name.filter (fun c => c.toNat < 128)
  let hyphened := ascii.map (fun c => if c == ' ' then '-' else c)
  let lowered := hyphened.map Char.toLower
  let kept := lowered.filter isK8sNameChar
  let collapsed := collapseHyphens kept
  let stripped := stripHyphens collapsed
  let nonEmpty := if stripped.isEmpty then ['u', 's', 'e', 'r'] else stripped
  let fronted :=
    match nonEmpty with
    | [] => nonEmpty
    | c :: _ => if c.isAlphanum then nonEmpty else 'u' :: nonEmpty
  fronted.take 63

/-! ### Helper lemmas -/

/-- Unfolding the poll loop when the bound is already exceeded. -/
theorem waitPoll_of_not_lt (poll : Nat → Except String Nat) (maxWait i elapsed : Nat)
    (h : ¬ elapsed < maxWait) :
    waitPoll poll maxWait i elapsed =
      (.error, "Deployment timeout - environment did not become ready") := by
  rw [waitPoll]
  simp [h]

/-- Unfolding one unready poll: the loop sleeps 30 seconds and re-checks. -/
theorem waitPoll_of_unready (poll : Nat → Except String Nat) (maxWait i elapsed : Nat)
    (h : elapsed < maxWait) (hp : poll i = .ok 0) :
    waitPoll poll maxWait i elapsed = waitPoll poll maxWait (i + 1) (elapsed + 30) := by
  rw [waitPoll]
  simp [h, hp]

/-- A run whose polls never report a ready replica ends in the timeout
error, whatever the starting index and elapsed time. -/
theorem waitPoll_never_ready (poll : Nat → Except String Nat) (maxWait : Nat)
    (hnever : ∀ i, poll i = .ok 0) (i elapsed : Nat) :
    waitPoll poll maxWait i elapsed =
      (.error, "Deployment timeout - environment did not become ready") := by
  have H : ∀ n i elapsed, maxWait - elapsed ≤ n →
      waitPoll poll maxWait i elapsed =
        (.error, "Deployment timeout - environment did not become ready") := by
    intro n
    induction n with
    | zero =>
        intro i elapsed hle
        exact waitPoll_of_not_lt poll maxWait i elapsed (by omega)
    | succ n ih =>
        intro i elapsed hle
        by_cases hlt : elapsed < maxWait
        · rw [waitPoll_of_unready poll maxWait i elapsed hlt (hnever i)]
          exact ih (i + 1) (elapsed + 30) (by omega)
        · exact waitPoll_of_not_lt poll maxWait i elapsed hlt
  exact H (maxWait - elapsed) i elapsed le_rfl

/-- A run that reaches a ready poll within the bound ends `Running`:
if the next `d` polls are unready, the `d`-th one after that reports at
least one ready replica, and the accumulated sleep stays below the bound,
the loop returns the running state. -/
theorem waitPoll_reaches_ready (poll : Nat → Except String Nat) (maxWait r : Nat)
    (hr : 1 ≤ r) :
    ∀ d i elapsed, (∀ k, k < d → poll (i + k) = .ok 0) → poll (i + d) = .ok r →
      elapsed + 30 * d < maxWait →
      waitPoll poll maxWait i elapsed = (.running, "Environment is running and ready") := by
  intro d
  induction d with
  | zero =>
      intro i elapsed _ hready hin
      rw [waitPoll]
      simp only [Nat.add_zero] at hready
      have hlt : elapsed < maxWait := by omega
      simp [hlt, hready, hr]
  | succ d ih =>
      intro i elapsed hbefore hready hin
      have hlt : elapsed < maxWait := by omega
      have h0 : poll i = .ok 0 := by
        have := hbefore 0 (Nat.succ_pos d)
        simpa using this
      rw [waitPoll_of_unready poll maxWait i elapsed hlt h0]
      refine ih (i + 1) (elapsed + 30) ?_ ?_ (by omega)
      · intro k hk
        have := hbefore (k + 1) (by omega)
        simpa [Nat.add_assoc, Nat.add_comm, Nat.add_left_comm] using this
      · simpa [Nat.add_assoc, Nat.add_comm, Nat.add_left_comm] using hready

/-- Concrete oracle: every platform call succeeds. -/
def allCallsOk : K8sCallResults :=
  ⟨.ok (), .ok (), .ok (), .ok (), .ok ()⟩

/-- Concrete oracle: quota application fails, everything else would succeed. -/
def quotaCallFails : K8sCallResults :=
  ⟨.ok (), .error "quota denied", .ok (), .ok (), .ok ()⟩

/-! ### Claims -/

/-- **C1.** Provisioning performs its platform calls in the strict order
namespace, quota, workload, service, ingress: every trace of
`deployEnvironment` is an order-preserving initial segment of
`deployStepOrder`, the workload-creation call is only ever attempted when
both namespace and quota calls succeeded, and the ingress-route call is only
ever attempted when the service call succeeded. -/
theorem deploy_step_ordering (o : K8sCallResults) :
    (deployEnvironment o).trace =
        deployStepOrder.take (deployEnvironment o).trace.length ∧
    (deployEnvironment o).trace.length ≤ 5 ∧
    (ProvisionStep.createWorkload ∈ (deployEnvironment o).trace →
      o.createNamespaceResult = .ok () ∧ o.createResourceQuotaResult = .ok ()) ∧
    (ProvisionStep.createIngressRoute ∈ (deployEnvironment o).trace →
      o.createServiceResult = .ok ()) := by
  obtain ⟨nsr, qr, dr, sr, ir⟩ := o
  cases nsr <;> cases qr <;> cases dr <;> cases sr <;> cases ir <;>
    simp [deployEnvironment, deployFail, deployStepOrder]

/-- Witness for C1 at concrete oracles: with every call succeeding the trace
is the full ordered step list, and with a failing quota call the workload
step is absent from the trace. -/
theorem deploy_step_ordering_witness :
    (deployEnvironment allCallsOk).trace = deployStepOrder ∧
    ProvisionStep.createWorkload ∉ (deployEnvironment quotaCallFails).trace := by
  have h2 := (deploy_step_ordering quotaCallFails).2.2.1
  refine ⟨rfl, ?_⟩
  intro hmem
  have := h2 hmem
  simp [quotaCallFails] at this

/-- **C2.** After successful provisioning the readiness poller is spawned as
a background task and the create call's own result is already `"deployed"`
(it cannot depend on polling: `deployEnvironment` takes no poll argument);
the poller checks on a 30-second interval up to the 300-second bound: a poll
reporting at least one ready replica within the bound leaves the status
`Running`, while polls that never report a ready replica end in `Error`
with the timeout message, not `Running`. -/
theorem readiness_polling (o : K8sCallResults)
    (pollNever pollReady : Nat → Except String Nat) (d r : Nat)
    (hprov : (deployEnvironment o).raised = none)
    (hnever : ∀ i, pollNever i = .ok 0)
    (hbefore : ∀ k, k < d → pollReady k = .ok 0)
    (hready : pollReady d = .ok r) (hr : 1 ≤ r) (hin : 30 * d < 300) :
    (deployEnvironment o).spawnedReadinessTask = true ∧
    (deployEnvironment o).responseStatus = some "deployed" ∧
    waitForDeploymentReady pollReady = (.running, "Environment is running and ready") ∧
    waitForDeploymentReady pollNever =
      (.error, "Deployment timeout - environment did not become ready") ∧
    (waitForDeploymentReady pollNever).1 ≠ EnvironmentStatus.running := by
  have hspawn : (deployEnvironment o).spawnedReadinessTask = true ∧
      (deployEnvironment o).responseStatus = some "deployed" := by
    obtain ⟨nsr, qr, dr', sr, ir⟩ := o
    cases nsr <;> cases qr <;> cases dr' <;> cases sr <;> cases ir <;>
      simp_all [deployEnvironment, deployFail]
  have hnever' := waitPoll_never_ready pollNever 300 hnever 0 0
  refine ⟨hspawn.1, hspawn.2, ?_, hnever', ?_⟩
  · have := waitPoll_reaches_ready pollReady 300 r hr d 0 0
      (by simpa using hbefore) (by simpa using hready) (by omega)
    simpa [waitForDeploymentReady] using this
  · rw [waitForDeploymentReady, hnever']
    simp

/-- Witness for C2: with every platform call succeeding, a poller whose
first check reports one ready replica ends `Running`, and a poller that
never reports a ready replica ends in the timeout error. -/
theorem readiness_polling_witness :
    (deployEnvironment allCallsOk).spawnedReadinessTask = true ∧
    (deployEnvironment allCallsOk).responseStatus = some "deployed" ∧
    waitForDeploymentReady (fun _ => .ok 1) =
      (.running, "Environment is running and ready") ∧
    waitForDeploymentReady (fun _ => .ok 0) =
      (.error, "Deployment timeout - environment did not become ready") ∧
    (waitForDeploymentReady (fun _ => .ok 0)).1 ≠ EnvironmentStatus.running :=
  readiness_polling allCallsOk (fun _ => .ok 0) (fun _ => .ok 1) 0 1
    rfl (fun _ => rfl) (fun k hk => absurd hk (Nat.not_lt_zero k)) rfl
    le_rfl (by omega)

/-- **C3.** When any provisioning step raises with message `e`,
`deploy_environment` aborts: the committed status is `Error`, the failure
message is retained in the status message, the recorded phase writes are
exactly `Creating` then `Error` — the workspace never reverts to
`Pending`. -/
theorem deploy_failure_reaches_error (o : K8sCallResults) (e : String)
    (h : (deployEnvironment o).raised = some e) :
    (deployEnvironment o).finalStatus = .error ∧
    (deployEnvironment o).statusMessage = "Deployment failed: " ++ e ∧
    (deployEnvironment o).phaseWrites = [.creating, .error] ∧
    EnvironmentStatus.pending ∉ (deployEnvironment o).phaseWrites ∧
    (deployEnvironment o).finalStatus ≠ EnvironmentStatus.pending := by
  obtain ⟨nsr, qr, dr, sr, ir⟩ := o
  cases nsr <;> cases qr <;> cases dr <;> cases sr <;> cases ir <;>
    simp_all [deployEnvironment, deployFail]

/-- Witness for C3 at a concrete failing oracle: a denied quota call leaves
the workspace in `Error` with the quota failure message, with no `Pending`
write. -/
theorem deploy_failure_reaches_error_witness :
    (deployEnvironment quotaCallFails).finalStatus = .error ∧
    (deployEnvironment quotaCallFails).statusMessage =
      "Deployment failed: " ++ "quota denied" ∧
    (deployEnvironment quotaCallFails).phaseWrites = [.creating, .error] ∧
    EnvironmentStatus.pending ∉ (deployEnvironment quotaCallFails).phaseWrites ∧
    (deployEnvironment quotaCallFails).finalStatus ≠ EnvironmentStatus.pending :=
  deploy_failure_reaches_error quotaCallFails "quota denied" rfl

/-- **C4.** Applying a resource quota is idempotent with first-writer-wins
semantics: the first apply installs its computed hard limits; a second apply
with arbitrary (possibly different) limits returns normally with status
`already_exists`, performs no update-in-place, and leaves the first-applied
hard limits installed unchanged. -/
theorem quota_first_writer_wins
    (c₁ : Rat) (m₁ : Bool) (g₁ : Int) (s₁ : String) (p₁ : Nat)
    (c₂ : Rat) (m₂ : Bool) (g₂ : Int) (s₂ : String) (p₂ : Nat) :
    createResourceQuota none c₁ m₁ g₁ s₁ p₁ =
      (some (quotaHardSpec c₁ m₁ g₁ s₁ p₁), .created) ∧
    createResourceQuota (createResourceQuota none c₁ m₁ g₁ s₁ p₁).1 c₂ m₂ g₂ s₂ p₂ =
      (some (quotaHardSpec c₁ m₁ g₁ s₁ p₁), .alreadyExists) := by
  exact ⟨rfl, rfl⟩

/-- Witness for C4 at concrete limits: a second apply with doubled limits
leaves the first-applied 1-CPU / 2 Gi hard limits installed and reports
`already_exists`. -/
theorem quota_first_writer_wins_witness :
    createResourceQuota none 1 false 2 "10Gi" 5 =
      (some (quotaHardSpec 1 false 2 "10Gi" 5), .created) ∧
    createResourceQuota (createResourceQuota none 1 false 2 "10Gi" 5).1 2 false 4 "20Gi" 9 =
      (some (quotaHardSpec 1 false 2 "10Gi" 5), .alreadyExists) :=
  quota_first_writer_wins 1 false 2 "10Gi" 5 2 false 4 "20Gi" 9

/-- **C5 counterexample.** The claim "the request ceiling for memory equals
half the limit ceiling" fails at a 3 Gi memory limit: the code computes
`int('3') // 2 = 1` Gi, which is not half of 3 Gi. -/
theorem quota_memory_half_counterexample :
    ¬ (((quotaHardSpec 1 false 3 "10Gi" 5).requestsMemoryGi : Rat) =
        ((quotaHardSpec 1 false 3 "10Gi" 5).limitsMemoryGi : Rat) / 2) := by
  norm_num [quotaHardSpec, Int.fdiv]

/-- **C5 (amended).** For every quota created by `create_resource_quota`:
the CPU request ceiling is exactly half the CPU limit ceiling (with the
milli suffix preserved); the memory request ceiling is the whole-Gi memory
limit halved with floor (integer) division, so `2 * request ∈ {limit,
limit - 1}`; and the object-count ceilings are the pod-limit parameter
(default 5), 5 services, 3 persistent-volume-claims, 10 secrets and
10 configmaps. -/
theorem quota_request_ceilings (c : Rat) (m : Bool) (g : Int) (s : String) (p : Nat) :
    (quotaHardSpec c m g s p).requestsCpu * 2 = c ∧
    (quotaHardSpec c m g s p).requestsCpuMilli = m ∧
    2 * (quotaHardSpec c m g s p).requestsMemoryGi ≤ g ∧
    g ≤ 2 * (quotaHardSpec c m g s p).requestsMemoryGi + 1 ∧
    (quotaHardSpec c m g s p).pods = p ∧
    defaultPodLimit = 5 ∧
    (quotaHardSpec c m g s p).services = 5 ∧
    (quotaHardSpec c m g s p).persistentvolumeclaims = 3 ∧
    (quotaHardSpec c m g s p).secrets = 10 ∧
    (quotaHardSpec c m g s p).configmaps = 10 := by
  have hfd : Int.fdiv g 2 = g / 2 := Int.fdiv_eq_ediv g (by norm_num)
  refine ⟨?_, rfl, ?_, ?_, rfl, rfl, rfl, rfl, rfl, rfl⟩
  · show c / 2 * 2 = c
    field_simp
  · show 2 * Int.fdiv g 2 ≤ g
    rw [hfd]; omega
  · show g ≤ 2 * Int.fdiv g 2 + 1
    rw [hfd]; omega

/-- Witness for C5 (amended) at a 1-CPU, 4 Gi quota with the default pod
limit. -/
theorem quota_request_ceilings_witness :
    (quotaHardSpec 1 false 4 "10Gi" defaultPodLimit).requestsCpu * 2 = 1 ∧
    (quotaHardSpec 1 false 4 "10Gi" defaultPodLimit).requestsCpuMilli = false ∧
    2 * (quotaHardSpec 1 false 4 "10Gi" defaultPodLimit).requestsMemoryGi ≤ 4 ∧
    (4 : Int) ≤ 2 * (quotaHardSpec 1 false 4 "10Gi" defaultPodLimit).requestsMemoryGi + 1 ∧
    (quotaHardSpec 1 false 4 "10Gi" defaultPodLimit).pods = defaultPodLimit ∧
    defaultPodLimit = 5 ∧
    (quotaHardSpec 1 false 4 "10Gi" defaultPodLimit).services = 5 ∧
    (quotaHardSpec 1 false 4 "10Gi" defaultPodLimit).persistentvolumeclaims = 3 ∧
    (quotaHardSpec 1 false 4 "10Gi" defaultPodLimit).secrets = 10 ∧
    (quotaHardSpec 1 false 4 "10Gi" defaultPodLimit).configmaps = 10 :=
  quota_request_ceilings 1 false 4 "10Gi" defaultPodLimit

/-- **C6.** `stop_workspace` and `start_workspace` fail with 403 `Forbidden`
whenever the requester is not the workspace owner — whatever the recorded
phase — fail with the 409 not-ready error whenever the status namespace is
unset (absent or empty), and scale the workload (`ide-{wid}` to 0 resp. 1
replicas in the status namespace) exactly when both checks pass. -/
theorem stop_start_ownership (wid : String) (cr : KubeDevCR) (requester : String) :
    (cr.userName ≠ requester →
      stopWorkspace wid cr requester = .error ⟨403, "Forbidden"⟩ ∧
      startWorkspace wid cr requester = .error ⟨403, "Forbidden"⟩) ∧
    (cr.userName = requester → (cr.statusNamespace = none ∨ cr.statusNamespace = some "") →
      stopWorkspace wid cr requester = .error ⟨409, "Workspace not ready"⟩ ∧
      startWorkspace wid cr requester = .error ⟨409, "Workspace not ready"⟩) ∧
    (∀ nsName, cr.userName = requester → cr.statusNamespace = some nsName → nsName ≠ "" →
      stopWorkspace wid cr requester = .ok ⟨nsName, "ide-" ++ wid, 0⟩ ∧
      startWorkspace wid cr requester = .ok ⟨nsName, "ide-" ++ wid, 1⟩) := by
  refine ⟨?_, ?_, ?_⟩
  · intro hne
    exact ⟨by simp [stopWorkspace, hne], by simp [startWorkspace, hne]⟩
  · rintro heq (hns | hns) <;>
      simp [stopWorkspace, startWorkspace, heq, hns]
  · intro nsName heq hns hne
    simp [stopWorkspace, startWorkspace, heq, hns, hne]

/-- Witness for C6 at concrete requests: a non-owner is rejected with 403
even on a `Running` workspace, the owner of a namespace-less workspace gets
the 409 not-ready error, and the owner of a ready workspace gets the scale
calls. -/
theorem stop_start_ownership_witness :
    stopWorkspace "w1" ⟨"alice", some "Running", some "ns-a"⟩ "bob" =
      .error ⟨403, "Forbidden"⟩ ∧
    startWorkspace "w1" ⟨"alice", some "Pending", none⟩ "alice" =
      .error ⟨409, "Workspace not ready"⟩ ∧
    stopWorkspace "w1" ⟨"alice", some "Running", some "ns-a"⟩ "alice" =
      .ok ⟨"ns-a", "ide-" ++ "w1", 0⟩ ∧
    startWorkspace "w1" ⟨"alice", some "Running", some "ns-a"⟩ "alice" =
      .ok ⟨"ns-a", "ide-" ++ "w1", 1⟩ := by
  have h403 := (stop_start_ownership "w1" ⟨"alice", some "Running", some "ns-a"⟩ "bob").1
    (by decide)
  have h409 := (stop_start_ownership "w1" ⟨"alice", some "Pending", none⟩ "alice").2.1
    rfl (Or.inl rfl)
  have hok := (stop_start_ownership "w1" ⟨"alice", some "Running", some "ns-a"⟩ "alice").2.2
    "ns-a" rfl rfl (by decide)
  exact ⟨h403.1, h409.2, hok.1, hok.2⟩

/-- Helper: `adminBatchCreate` splits the user list into the successfully
created responses and the per-user failure strings, in order. -/
theorem adminBatchCreate_spec {α : Type} (create : String → Except String α)
    (payloadName : String) (users : List String) :
    adminBatchCreate create payloadName users =
      (users.filterMap (fun u => (create (envName u payloadName)).toOption),
       users.filterMap (fun u =>
         match create (envName u payloadName) with
         | .error e => some (u ++ ": " ++ e)
         | .ok _ => none)) := by
  induction users with
  | nil => rfl
  | cons u rest ih =>
      cases hc : create (envName u payloadName) <;>
        simp [adminBatchCreate, ih, hc, Except.toOption]

/-- Helper: every user contributes exactly one entry, either to the created
list or to the failed list. -/
theorem adminBatchCreate_length {α : Type} (create : String → Except String α)
    (payloadName : String) (users : List String) :
    (adminBatchCreate create payloadName users).1.length +
      (adminBatchCreate create payloadName users).2.length = users.length := by
  induction users with
  | nil => rfl
  | cons u rest ih =>
      cases hc : create (envName u payloadName) <;>
        simp [adminBatchCreate, hc] <;> omega

/-- **C7.** `admin_batch_create` isolates per-item failures: over any user
list, each user contributes exactly one entry — its response in `created`
when creation succeeds, one `"user: reason"` entry in `failed` when it
raises — so failures never abort the remaining users; in particular a run
over three users whose middle creation fails returns the two successful
responses and exactly one failure entry. -/
theorem batch_create_isolation {α : Type} (create : String → Except String α)
    (payloadName : String) (users : List String)
    (u₁ u₂ u₃ : String) (a₁ a₃ : α) (e₂ : String)
    (h₁ : create (envName u₁ payloadName) = .ok a₁)
    (h₂ : create (envName u₂ payloadName) = .error e₂)
    (h₃ : create (envName u₃ payloadName) = .ok a₃) :
    (adminBatchCreate create payloadName users).1.length +
      (adminBatchCreate create payloadName users).2.length = users.length ∧
    (adminBatchCreate create payloadName users).2 =
      users.filterMap (fun u =>
        match create (envName u payloadName) with
        | .error e => some (u ++ ": " ++ e)
        | .ok _ => none) ∧
    adminBatchCreate create payloadName [u₁, u₂, u₃] =
      ([a₁, a₃], [u₂ ++ ": " ++ e₂]) := by
  refine ⟨adminBatchCreate_length create payloadName users, ?_, ?_⟩
  · rw [adminBatchCreate_spec]
  · simp [adminBatchCreate, h₁, h₂, h₃]

/-- Witness for C7: three users where exactly the middle creation fails
yield two created entries and one failure entry. -/
theorem batch_create_isolation_witness :
    adminBatchCreate
        (fun n => if n = envName "u2" "lab" then .error "boom" else .ok n)
        "lab" ["u1", "u2", "u3"] =
      ([envName "u1" "lab", envName "u3" "lab"], ["u2" ++ ": " ++ "boom"]) ∧
    (["u1", "u2", "u3"] : List String).length = 2 + 1 := by
  refine ⟨?_, rfl⟩
  exact (batch_create_isolation
    (fun n => if n = envName "u2" "lab" then .error "boom" else .ok n)
    "lab" [] "u1" "u2" "u3" (envName "u1" "lab") (envName "u3" "lab") "boom"
    (by simp [envName]) (by simp) (by simp [envName])).2.2

/-- **C8.** Create treats already-exists as success and delete treats
not-found as success: `create_namespace` returns `True` both on a normal
create and on a 409 already-exists response, and `delete_deployment` /
`delete_service` return `True` both on a normal delete and on a 404
not-found response — never an error. -/
theorem idempotent_create_and_delete (m : String) :
    createNamespace (.apiException 409 m) = .ok true ∧
    createNamespace .success = .ok true ∧
    deleteDeployment (.apiException 404 m) = .ok true ∧
    deleteDeployment .success = .ok true ∧
    deleteService (.apiException 404 m) = .ok true ∧
    deleteService .success = .ok true := by
  exact ⟨rfl, rfl, rfl, rfl, rfl, rfl⟩

/-- Witness for C8 at a concrete exception message. -/
theorem idempotent_create_and_delete_witness :
    createNamespace (.apiException 409 "namespaces already exists") = .ok true ∧
    createNamespace .success = .ok true ∧
    deleteDeployment (.apiException 404 "deployment not found") = .ok true ∧
    deleteDeployment .success = .ok true ∧
    deleteService (.apiException 404 "deployment not found") = .ok true ∧
    deleteService .success = .ok true := by
  have h1 := idempotent_create_and_delete "namespaces already exists"
  have h2 := idempotent_create_and_delete "deployment not found"
  exact ⟨h1.1, h1.2.1, h2.2.2.1, h2.2.2.2.1, h2.2.2.2.2.1, h2.2.2.2.2.2⟩

/-- **C9 counterexample.** The claim "a workspace whose phase is `Running`
but whose external address is empty reports `can_access` false" fails on
the code: `access_url is not None` holds for the empty string, so
`can_access` is true. -/
theorem can_access_empty_address_counterexample :
    canAccess .running (some "") = true ∧
    ¬ (canAccess .running (some "") = false) := by
  exact ⟨rfl, by decide⟩

/-- **C9 (amended).** `can_access` is true if and only if the phase is
`Running` and an external address is present (not `None`); presence, not
non-emptiness, is what the code tests, so an empty-string address still
grants access. -/
theorem can_access_iff (status : EnvironmentStatus) (accessUrl : Option String) :
    canAccess status accessUrl = true ↔
      (status = .running ∧ accessUrl.isSome = true) := by
  cases status <;> cases accessUrl <;> simp [canAccess] <;> decide

/-- Witness for C9 (amended): a running workspace with a non-None address is
accessible; a running workspace with address `None` is not. -/
theorem can_access_iff_witness :
    (canAccess .running (some "http://env.kubdev.local") = true ↔
      (EnvironmentStatus.running = .running ∧
        (some "http://env.kubdev.local").isSome = true)) ∧
    (canAccess .running none = true ↔
      (EnvironmentStatus.running = .running ∧ (none : Option String).isSome = true)) :=
  ⟨can_access_iff .running (some "http://env.kubdev.local"), can_access_iff .running none⟩

/-- **C10 (code bug).** `sanitize_name_for_k8s` evaluated at 62 `a`s
followed by `" b"`: the space becomes a hyphen, making 64 characters, and
the final truncation to 63 characters cuts right after that hyphen, so the
result ends in `-` — not an alphanumeric character, contradicting the
function's own contract (and RFC 1123). -/
theorem sanitize_truncation_trailing_hyphen :
    sanitizeNameForK8s (List.replicate 62 'a' ++ [' ', 'b']) =
      List.replicate 62 'a' ++ ['-'] ∧
    (List.replicate 62 'a' ++ ['-']).getLast? = some '-' ∧
    Char.isAlphanum '-' = false ∧
    (List.replicate 62 'a' ++ ['-']).length = 63 := by
  exact ⟨by decide, by decide, by decide, by decide⟩

end KubDev
